import Mathlib

/-!
Verification of the Tile BLE protocol client
(`custom_components/life360/tile_ble.py`).

Bytes are modelled as `Nat` values below 256, byte strings as `List Nat`.
SHA-256 and HMAC-SHA-256 (the Python `hashlib`/`hmac` calls the module
makes) are implemented executably so every protocol-level definition can be
evaluated on concrete inputs.
-/

namespace TileBle

/-! ## SHA-256 over byte lists -/

/-- Truncate to a 32-bit word. -/
def u32 (n : Nat) : Nat := n % 4294967296

/-- Right-rotation of a 32-bit word by `n` bits. -/
def rotr (n w : Nat) : Nat := u32 ((w >>> n) ||| (w <<< (32 - n)))

/-- Bitwise complement of a 32-bit word. -/
def compl32 (w : Nat) : Nat := w ^^^ 4294967295

/-- Big-endian bytes of a 32-bit word. -/
def be32 (w : Nat) : List Nat :=
  [w >>> 24 % 256, w >>> 16 % 256, w >>> 8 % 256, w % 256]

/-- Big-endian bytes of a 64-bit length field. -/
def be64 (w : Nat) : List Nat :=
  [w >>> 56 % 256, w >>> 48 % 256, w >>> 40 % 256, w >>> 32 % 256,
   w >>> 24 % 256, w >>> 16 % 256, w >>> 8 % 256, w % 256]

/-- A big-endian word from (up to four) bytes. -/
def wordOfBytes (bs : List Nat) : Nat := bs.foldl (fun a b => a * 256 + b) 0

/-- SHA-256 round constants (FIPS 180-4 section 4.2.2, the first 32 bits of
the fractional parts of the cube roots of the first 64 primes), written in
decimal. -/
def shaK : List Nat :=
  [1116352408, 1899447441, 3049323471, 3921009573,
   961987163, 1508970993, 2453635748, 2870763221,
   3624381080, 310598401, 607225278, 1426881987,
   1925078388, 2162078206, 2614888103, 3248222580,
   3835390401, 4022224774, 264347078, 604807628,
   770255983, 1249150122, 1555081692, 1996064986,
   2554220882, 2821834349, 2952996808, 3210313671,
   3336571891, 3584528711, 113926993, 338241895,
   666307205, 773529912, 1294757372, 1396182291,
   1695183700, 1986661051, 2177026350, 2456956037,
   2730485921, 2820302411, 3259730800, 3345764771,
   3516065817, 3600352804, 4094571909, 275423344,
   430227734, 506948616, 659060556, 883997877,
   958139571, 1322822218, 1537002063, 1747873779,
   1955562222, 2024104815, 2227730452, 2361852424,
   2428436474, 2756734187, 3204031479, 3329325298]

/-- The eight-word SHA-256 hash state. -/
structure Sha256State where
  a : Nat
  b : Nat
  c : Nat
  d : Nat
  e : Nat
  f : Nat
  g : Nat
  h : Nat
deriving Repr, DecidableEq

/-- SHA-256 initial hash value (FIPS 180-4 section 5.3.3), in decimal. -/
def shaInit : Sha256State :=
  ⟨1779033703, 3144134277, 1013904242, 2773480762,
   1359893119, 2600822924, 528734635, 1541459225⟩

/-- Extend the 16 message words by `fuel` further schedule words. -/
def extendSchedule (ws : List Nat) : Nat → List Nat
  | 0 => ws
  | fuel + 1 =>
    let i := ws.length
    let w15 := ws.getD (i - 15) 0
    let w2 := ws.getD (i - 2) 0
    let s0 := rotr 7 w15 ^^^ rotr 18 w15 ^^^ (w15 >>> 3)
    let s1 := rotr 17 w2 ^^^ rotr 19 w2 ^^^ (w2 >>> 10)
    extendSchedule (ws ++ [u32 (ws.getD (i - 16) 0 + s0 + ws.getD (i - 7) 0 + s1)]) fuel

/-- One SHA-256 compression round on the working variables. -/
def shaRound (st : Sha256State) (kw : Nat × Nat) : Sha256State :=
  let S1 := rotr 6 st.e ^^^ rotr 11 st.e ^^^ rotr 25 st.e
  let ch := (st.e &&& st.f) ^^^ (compl32 st.e &&& st.g)
  let t1 := u32 (st.h + S1 + ch + kw.1 + kw.2)
  let S0 := rotr 2 st.a ^^^ rotr 13 st.a ^^^ rotr 22 st.a
  let mj := (st.a &&& st.b) ^^^ (st.a &&& st.c) ^^^ (st.b &&& st.c)
  let t2 := u32 (S0 + mj)
  ⟨u32 (t1 + t2), st.a, st.b, st.c, u32 (st.d + t1), st.e, st.f, st.g⟩

/-- Fuel-driven chunking worker, structurally recursive so the kernel can
evaluate it. -/
def chunksFuel (n : Nat) : Nat → List α → List (List α)
  | 0, _ => []
  | _, [] => []
  | fuel + 1, x :: xs =>
    (x :: xs).take (n + 1) :: chunksFuel n fuel ((x :: xs).drop (n + 1))

/-- Split a list into consecutive chunks of `n + 1` elements. -/
def chunksPos (n : Nat) (l : List α) : List (List α) := chunksFuel n l.length l

/-- Compress one 64-byte block into the hash state. -/
def shaBlock (st : Sha256State) (block : List Nat) : Sha256State :=
  let ws := extendSchedule ((chunksPos 3 block).map wordOfBytes) 48
  let v := (shaK.zip ws).foldl shaRound st
  ⟨u32 (st.a + v.a), u32 (st.b + v.b), u32 (st.c + v.c), u32 (st.d + v.d),
   u32 (st.e + v.e), u32 (st.f + v.f), u32 (st.g + v.g), u32 (st.h + v.h)⟩

/-- SHA-256 padding: append `0x80`, zeros to 56 mod 64, then the bit length. -/
def shaPad (msg : List Nat) : List Nat :=
  msg ++ 0x80 :: List.replicate ((119 - msg.length % 64) % 64) 0 ++ be64 (msg.length * 8)

/-- Serialize the hash state to its 32-byte digest. -/
def shaDigest (st : Sha256State) : List Nat :=
  be32 st.a ++ be32 st.b ++ be32 st.c ++ be32 st.d ++
  be32 st.e ++ be32 st.f ++ be32 st.g ++ be32 st.h

/-- SHA-256 of a byte list. -/
def sha256 (msg : List Nat) : List Nat :=
  shaDigest ((chunksPos 63 (shaPad msg)).foldl shaBlock shaInit)

/-- HMAC-SHA-256 (RFC 2104): the Python `hmac.new(key, msg, hashlib.sha256)`. -/
def hmacSha256 (key msg : List Nat) : List Nat :=
  let kh := if 64 < key.length then sha256 key else key
  let k0 := kh ++ List.replicate (64 - kh.length) 0
  sha256 ((k0.map (· ^^^ 0x5c)) ++ sha256 ((k0.map (· ^^^ 0x36)) ++ msg))

/-! ## Address derivation (`TileBleClient._tile_id_to_mac`) -/

/-- ASCII lower-casing of one character (Python `str.lower` on the ASCII
identifiers this module handles). -/
def lowerChar (c : Char) : Char :=
  if 'A' ≤ c ∧ c ≤ 'Z' then Char.ofNat (c.toNat + 32) else c

/-- Lower-case a hex-identifier string and strip `:` and `-` separators:
the module's `x.lower().replace(":", "").replace("-", "")` normalization. -/
def normalizeHexStr (s : String) : List Char :=
  (s.data.map lowerChar).filter (fun c => !(c == ':' || c == '-'))

/-- Value of one hex digit (junk value 0 on a non-hex character; the Python
`bytes.fromhex` would raise there, and every theorem that relies on decoding
assumes hex input as the spec does). -/
def hexDigitVal (c : Char) : Nat :=
  if '0' ≤ c ∧ c ≤ '9' then c.toNat - 48
  else if 'a' ≤ c ∧ c ≤ 'f' then c.toNat - 87
  else if 'A' ≤ c ∧ c ≤ 'F' then c.toNat - 55
  else 0

/-- Is the character an ASCII hex digit? -/
def isHexChar (c : Char) : Bool :=
  ('0' ≤ c ∧ c ≤ '9') ∨ ('a' ≤ c ∧ c ≤ 'f') ∨ ('A' ≤ c ∧ c ≤ 'F')

/-- Decode pairs of hex characters into bytes (`bytes.fromhex`). -/
def hexDecode : List Char → List Nat
  | a :: b :: rest => (16 * hexDigitVal a + hexDigitVal b) :: hexDecode rest
  | _ => []

/-- Upper-case hex digit of a value below 16. -/
def hexUpperDigit (n : Nat) : Char := "0123456789ABCDEF".data.getD n '0'

/-- Two upper-case hex characters of one byte: the Python `f"{b:02X}"`. -/
def byteHexUpper (b : Nat) : List Char :=
  [hexUpperDigit (b / 16 % 16), hexUpperDigit (b % 16)]

/-- Force the top two bits of the first byte to `11`:
`mac_bytes[0] = (mac_bytes[0] & 0x3F) | 0xC0`. -/
def forceStaticAddr : List Nat → List Nat
  | [] => []
  | b0 :: rest => ((b0 &&& 0x3f) ||| 0xc0) :: rest

/-- Colon-separated upper-case hex rendering: `":".join(f"{b:02X}" ...)`. -/
def macFormat (bs : List Nat) : String :=
  String.mk (List.intercalate [':'] (bs.map byteHexUpper))

/-- The address deriver `TileBleClient._tile_id_to_mac`: normalize, require
12 hex characters (returning the empty-string failure sentinel otherwise),
decode the first 6 bytes, force the random-static-address bits, format. -/
def tile_id_to_mac (tile_id : String) : String :=
  let clean := normalizeHexStr tile_id
  if clean.length < 12 then ""
  else macFormat (forceStaticAddr (hexDecode (clean.take 12)))

/-- Modelled from the spec: the derived address as §4.1 words it — the first
6 bytes of the decoded identifier, top two bits of the first byte forced to
`11`, colon-separated upper-case hex. -/
def specDerivedAddress (device_id : String) : String :=
  macFormat (forceStaticAddr ((hexDecode (normalizeHexStr device_id)).take 6))

/-! ## Protocol constants and error taxonomy -/

/-- The 5-byte connectionless MEP frame marker `00 FF FF FF FF`. -/
def MEP_CONNECTION_ID : List Nat := [0x00, 0xff, 0xff, 0xff, 0xff]

/-- The Tile advertisement service UUID. -/
def TILE_SERVICE_UUID : String := "0000feed-0000-1000-8000-00805f9b34fb"

/-- Failure modes of the handshake (spec §7 names; the source reports each
by logging and returning `False` from `authenticate`). -/
inductive TileError where
  | protocolError
  | authenticationError
deriving DecidableEq, Repr

/-! ## Authentication handshake (`TileBleClient.authenticate`, step 3) -/

/-- Zero-pad a byte list to 16 bytes (`x + b"\x00" * (16 - len(x))`). -/
def padTo16 (b : List Nat) : List Nat := b ++ List.replicate (16 - b.length) 0

/-- The expected 4-byte signature: HMAC-SHA-256 of the 32-byte concatenation
of the two 16-byte-padded nonces, digest bytes `[4:8]`. -/
def expectedSres (auth_key rand_a rand_t : List Nat) : List Nat :=
  ((hmacSha256 auth_key (padTo16 rand_a ++ padTo16 rand_t)).drop 4).take 4

/-- Length dispatch on the nonce-exchange body (after the 5-byte envelope):
15 bytes parse as TOA (`[1:11]` nonce, `[11:15]` signature), 17 or more as
legacy (`[1:9]` nonce, `[9:17]` signature), anything else is a protocol
error. Returns `(rand_t, sres_t)`. -/
def parseAuthData (auth_data : List Nat) :
    Except TileError (List Nat × List Nat) :=
  if auth_data.length = 15 then
    .ok ((auth_data.drop 1).take 10, (auth_data.drop 11).take 4)
  else if 17 ≤ auth_data.length then
    .ok ((auth_data.drop 1).take 8, (auth_data.drop 9).take 8)
  else
    .error .protocolError

/-- Step 3 of `authenticate`: parse the stripped body, then accept exactly
when the device-supplied signature equals the expected one, yielding the
device nonce; a mismatch is the fatal authentication failure. -/
def verifyAuth (auth_key rand_a auth_data : List Nat) :
    Except TileError (List Nat) :=
  match parseAuthData auth_data with
  | .error e => .error e
  | .ok (rand_t, sres_t) =>
    if sres_t = expectedSres auth_key rand_a rand_t then .ok rand_t
    else .error .authenticationError

/-! ## Channel establishment and the signed command codec -/

/-- Session counter and channel state (`_tx_counter`, `_rx_counter`,
`_channel_key`, `_channel_byte`; both counters start at 0 in `__init__`). -/
structure Session where
  tx_counter : Nat
  rx_counter : Nat
  channel_key : List Nat
  channel_byte : Nat
deriving DecidableEq, Repr

/-- Little-endian bytes of a 16-bit value (`to_bytes(2, "little")`). -/
def le16 (n : Nat) : List Nat := [n % 256, n / 256 % 256]

/-- The 32-byte HMAC input of `_build_hmac_message`: 4-byte little-endian
counter, direction byte (1 outgoing, 0 incoming), payload length byte, the
payload without its channel byte, zero-padded to 32 bytes (left unpadded if
already longer, exactly as the source's conditional padding behaves). -/
def build_hmac_message (counter : Nat) (cmd_data : List Nat) (is_rx : Bool) :
    List Nat :=
  let message :=
    [counter % 256, counter / 256 % 256,
     counter / 65536 % 256, counter / 16777216 % 256] ++
    [if is_rx then 0 else 1] ++ [cmd_data.length] ++ cmd_data
  message ++ List.replicate (32 - message.length) 0

/-- A 4-byte signature: `hmac.new(key, msg, sha256).digest()[:4]`. -/
def hmacTag (key msg : List Nat) : List Nat := (hmacSha256 key msg).take 4

/-- The channel key of `_derive_channel_encryption_key`:
`HMAC-SHA256(auth_key, rand_a || channel_data || channel_byte ||
connection_id)[:16]`. -/
def derive_channel_encryption_key (auth_key rand_a channel_data : List Nat)
    (channel_byte : Nat) : List Nat :=
  (hmacSha256 auth_key
    (rand_a ++ channel_data ++ [channel_byte] ++ MEP_CONNECTION_ID)).take 16

/-- The channel-establish frame of `_establish_channel`: increment
`tx_counter` first, sign `[0x12, 0x13]` with the incremented counter, and
emit `channel_byte || payload || signature`. -/
def establish_channel_frame (s : Session) : Session × List Nat :=
  let s2 := { s with tx_counter := s.tx_counter + 1 }
  let sig := hmacTag s.channel_key (build_hmac_message s2.tx_counter [0x12, 0x13] false)
  (s2, [s.channel_byte, 0x12, 0x13] ++ sig)

/-- The connection-parameter payload of `_update_connection_params`:
intervals 288 and 304, latency 4, timeout 600, flag byte `0x0e`. -/
def connParamsBytes : List Nat :=
  le16 288 ++ le16 304 ++ le16 4 ++ le16 600 ++ [0x0e]

/-- The signed connection-parameter-update frame of
`_update_connection_params` (command `0x0c`, transaction `0x03`). -/
def update_connection_params_frame (s : Session) : Session × List Nat :=
  let payload := [0x0c, 0x03] ++ connParamsBytes
  let s2 := { s with tx_counter := s.tx_counter + 1 }
  let sig := hmacTag s.channel_key (build_hmac_message s2.tx_counter payload false)
  (s2, s.channel_byte :: payload ++ sig)

/-- The signed song-feature-query frame of `_read_song_features`
(command `0x05`, transaction `0x06`). -/
def read_song_features_frame (s : Session) : Session × List Nat :=
  let payload := [0x05, 0x06]
  let s2 := { s with tx_counter := s.tx_counter + 1 }
  let sig := hmacTag s.channel_key (build_hmac_message s2.tx_counter payload false)
  (s2, s.channel_byte :: payload ++ sig)

/-- The signed ring frame of `_build_ring_command`: payload
`[0x05 SONG, 0x02 PLAY, 0x01 flags, volume, duration]`. -/
def build_ring_command (s : Session) (volume duration_seconds : Nat) :
    Session × List Nat :=
  let payload := [0x05, 0x02, 0x01, volume, duration_seconds]
  let s2 := { s with tx_counter := s.tx_counter + 1 }
  let sig := hmacTag s.channel_key (build_hmac_message s2.tx_counter payload false)
  (s2, s.channel_byte :: payload ++ sig)

/-- The unauthenticated stop frame of `_build_stop_command`:
connectionless envelope plus `[0x18 TRM, 0x02 STOP_RING]`. -/
def build_stop_command : List Nat := MEP_CONNECTION_ID ++ [0x18, 0x02]

/-- Incoming-frame verification `_verify_response_hmac`: split off the
trailing 4-byte tag, strip the channel byte, increment `rx_counter`
speculatively, recompute the tag with direction 0 at the incremented
counter, and on mismatch decrement the counter back; the failure is
reported as a `false` result, never an exception. -/
def verify_response_hmac (s : Session) (response : List Nat) :
    Session × Bool × List Nat :=
  if response.length < 6 then (s, false, response)
  else
    let data_with_channel := response.take (response.length - 4)
    let received_hmac := response.drop (response.length - 4)
    let data_without_channel := data_with_channel.drop 1
    let s2 := { s with rx_counter := s.rx_counter + 1 }
    let expected := hmacTag s.channel_key
      (build_hmac_message s2.rx_counter data_without_channel true)
    if expected = received_hmac then (s2, true, data_with_channel)
    else ({ s2 with rx_counter := s2.rx_counter - 1 }, false, data_with_channel)

/-! ## Channel open and the post-nonce part of `authenticate` -/

/-- The `_open_channel` response parser: a response of at least 7 bytes whose
first 6 bytes are the connectionless marker followed by `0x12` yields the
channel byte (index 6) and the channel data (the rest); `none` models the
timeout and every malformed-response exception path. -/
def open_channel (resp : Option (List Nat)) : Option (Nat × List Nat) :=
  match resp with
  | none => none
  | some r =>
    if r.length < 7 then none
    else if r.take 6 = MEP_CONNECTION_ID ++ [0x12] then
      some (r.getD 6 0, r.drop 7)
    else none

/-- The tail of `authenticate` after the nonce exchange, with the device's
responses supplied as inputs: on a signature-stage error the method returns
`False` at once and no channel frame is written; otherwise it writes the
channel-open frame, derives the channel key, writes the signed establish
frame (a missing or unverifiable establish response is tolerated), and
writes the connection-parameter update. Returns the overall result and the
frames written after the nonce stage. -/
def authenticate_after_nonce (auth_key rand_a auth_data : List Nat)
    (open_resp establish_resp : Option (List Nat)) : Bool × List (List Nat) :=
  match verifyAuth auth_key rand_a auth_data with
  | .error _ => (false, [])
  | .ok _ =>
    let openFrame := MEP_CONNECTION_ID ++ [0x10] ++ rand_a
    match open_channel open_resp with
    | none => (false, [openFrame])
    | some (cb, cd) =>
      let key := derive_channel_encryption_key auth_key rand_a cd cb
      let s : Session := ⟨0, 0, key, cb⟩
      let r1 := establish_channel_frame s
      let s2 :=
        match establish_resp with
        | none => r1.1
        | some resp =>
          if 2 ≤ resp.length ∧ resp.getD 0 0 = cb ∧ resp.getD 1 0 = 0x01 then
            (verify_response_hmac r1.1 resp).1
          else r1.1
      let r2 := update_connection_params_frame s2
      (true, [openFrame, r1.2, r2.2])

/-! ## Advertisement matching (`TileBleClient.scan_for_tile`) -/

/-- One advertisement record as the detection callback sees it. -/
structure Advert where
  address : String
  name : Option String
  service_uuids : List String
deriving DecidableEq, Repr

/-- Does the pattern occur as a contiguous run inside the list (the Python
`in` on strings)? -/
def containsSeq (pat : List Char) : List Char → Bool
  | [] => pat.isEmpty
  | c :: rest => pat.isPrefixOf (c :: rest) || containsSeq pat rest

/-- The detection callback of `scan_for_tile`, folded over one advertisement:
a service-UUID record with the exact derived address always (re)takes the
slot; a service-UUID record with a different address and any of the two
weaker matches fill the slot only when it is still empty. -/
def detection_callback (expected_mac tile_id : List Char)
    (found : Option Advert) (dev : Advert) : Option Advert :=
  let addr := normalizeHexStr dev.address
  if dev.service_uuids.contains TILE_SERVICE_UUID then
    if addr = expected_mac then some dev
    else if found.isNone then some dev else found
  else if addr = expected_mac then some dev
  else if 12 ≤ tile_id.length ∧ containsSeq (tile_id.take 12) addr then
    if found.isNone then some dev else found
  else
    match dev.name with
    | some nm =>
      if containsSeq (tile_id.take 8) ((nm.data.map lowerChar)) then
        if found.isNone then some dev else found
      else found
    | none => found

/-- The 0.5-second polling loop of `scan_for_tile`, discretized: each fuel
unit is one poll interval and `batches` lists the advertisements arriving in
each interval. The loop first checks the found slot (breaking early, the
`true` flag), then the timeout (`false`), then folds the next batch through
the callback. -/
def scan_loop (expected_mac tile_id : List Char) :
    Nat → Option Advert → List (List Advert) → Option Advert × Bool
  | _, some d, _ => (some d, true)
  | 0, none, _ => (none, false)
  | fuel + 1, none, batches =>
    scan_loop expected_mac tile_id fuel
      ((batches.headD []).foldl (detection_callback expected_mac tile_id) none)
      batches.tail

/-- The scan entry point: derives the expected address from the identifier
and runs the polling loop with an empty found slot. -/
def scan_for_tile (tile_id : String) (fuel : Nat)
    (batches : List (List Advert)) : Option Advert × Bool :=
  scan_loop (normalizeHexStr (tile_id_to_mac tile_id)) (normalizeHexStr tile_id)
    fuel none batches

/-! ## Ring controller and the public entry points -/

/-- Outcome vocabulary for the Ring operation (the spec's §7 taxonomy; the
source only ever produces the boolean success/failure pair). -/
inductive RingOutcome where
  | success
  | failure
  | unsupportedFeature
deriving DecidableEq, Repr

/-- The already-authenticated tail of `TileBleClient.ring`: write the signed
song-feature query, wait the settle delay, write the signed ring frame, and
return success. The `post_ring_response` argument models a notification
delivered after the ring write; the source never reads its response queue
after that write, so the result cannot depend on it. -/
def ring_after_auth (s : Session) (volume duration_seconds : Nat)
    (post_ring_response : Option (List Nat)) :
    RingOutcome × Session × List (List Nat) :=
  let r1 := read_song_features_frame s
  let r2 := build_ring_command r1.1 volume duration_seconds
  (RingOutcome.success, r2.1, [r1.2, r2.2])

/-- Radio actions the high-level entry points can perform. -/
inductive RadioOp where
  | scanOp
  | connectOp
  | writeOp
deriving DecidableEq, Repr

/-- Environment outcomes of the BLE stack for the high-level entry points:
whether the scan locates a device, whether the GATT connect succeeds, and
the results of the authenticate/ring/stop stages. -/
structure BleEnv where
  scan_found : Bool
  connect_ok : Bool
  auth_ok : Bool
  ring_ok : Bool
  stop_ok : Bool
deriving DecidableEq, Repr

/-- The `ring_tile_ble` pipeline: validate the key length FIRST (returning
failure with no radio action), then scan, connect, and run the ring stage,
whose writes `writeOp` summarizes. -/
def ring_tile_ble (auth_key : List Nat) (env : BleEnv) : Bool × List RadioOp :=
  if auth_key.length ≠ 16 then (false, [])
  else if !env.scan_found then (false, [.scanOp])
  else if !env.connect_ok then (false, [.scanOp, .connectOp])
  else (env.ring_ok, [.scanOp, .connectOp, .writeOp])

/-- The `stop_ring_tile_ble` pipeline: the source performs NO auth-key
length validation — it scans immediately, then connects, authenticates and
writes the stop frame. -/
def stop_ring_tile_ble (auth_key : List Nat) (env : BleEnv) :
    Bool × List RadioOp :=
  if !env.scan_found then (false, [.scanOp])
  else if !env.connect_ok then (false, [.scanOp, .connectOp])
  else if !env.auth_ok then (false, [.scanOp, .connectOp, .writeOp])
  else (env.stop_ok, [.scanOp, .connectOp, .writeOp, .writeOp])

/-- The `tx_counter` values used by the four signed frames of one ring
session, in the order `authenticate` and `ring` issue them: channel
establish, connection-parameter update, song-feature query, ring. -/
def ringFlowCounters (s : Session) (volume duration_seconds : Nat) : List Nat :=
  let r1 := establish_channel_frame s
  let r2 := update_connection_params_frame r1.1
  let r3 := read_song_features_frame r2.1
  let r4 := build_ring_command r3.1 volume duration_seconds
  [r1.1.tx_counter, r2.1.tx_counter, r3.1.tx_counter, r4.1.tx_counter]

/-- Concrete 16-byte key for handshake witnesses. -/
def wKey : List Nat :=
  [17, 34, 51, 68, 85, 102, 119, 136, 153, 170, 187, 204, 221, 238, 255, 0]

/-- Concrete 14-byte local nonce for handshake witnesses. -/
def wRandA : List Nat := [1, 2, 3, 4, 5, 6, 7, 8, 9, 10, 11, 12, 13, 14]

/-- Concrete 10-byte device nonce for handshake witnesses. -/
def wRandT : List Nat := [201, 202, 203, 204, 205, 206, 207, 208, 209, 210]

/-- A 15-byte TOA-format body carrying the correct signature for `wKey`,
`wRandA`, `wRandT`. -/
def wAuthData : List Nat := 0x15 :: wRandT ++ expectedSres wKey wRandA wRandT

/-- Service-UUID advertisement whose address is not the derived one. -/
def fallbackAdvert : Advert :=
  ⟨"11:22:33:44:55:66", none, [TILE_SERVICE_UUID]⟩

/-! ## Library facts -/

/-- A SHA-256 digest is always 32 bytes. -/
theorem sha256_length (msg : List Nat) : (sha256 msg).length = 32 := by
  simp [sha256, shaDigest, be32]

/-- An HMAC-SHA-256 tag is always 32 bytes. -/
theorem hmacSha256_length (key msg : List Nat) :
    (hmacSha256 key msg).length = 32 := by
  simp [hmacSha256, sha256_length]

/-- FIPS 180-4 test vector: SHA-256 of the empty message, pinning the
implementation to the real function. -/
theorem sha256_empty_vector :
    sha256 [] =
      [0xe3, 0xb0, 0xc4, 0x42, 0x98, 0xfc, 0x1c, 0x14,
       0x9a, 0xfb, 0xf4, 0xc8, 0x99, 0x6f, 0xb9, 0x24,
       0x27, 0xae, 0x41, 0xe4, 0x64, 0x9b, 0x93, 0x4c,
       0xa4, 0x95, 0x99, 0x1b, 0x78, 0x52, 0xb8, 0x55] := by
  set_option maxRecDepth 100000 in decide

/-- Decoding a prefix of `2 * n` hex characters yields the first `n` decoded
bytes. -/
theorem hexDecode_take (n : Nat) :
    ∀ l : List Char, hexDecode (l.take (2 * n)) = (hexDecode l).take n := by
  induction n with
  | zero => intro l; simp [hexDecode]
  | succ m ih =>
    intro l
    match l with
    | [] => simp [hexDecode]
    | [a] => simp [hexDecode, List.take]
    | a :: b :: rest =>
      have h2 : 2 * (m + 1) = (2 * m) + 1 + 1 := by omega
      rw [h2]
      simp [List.take, hexDecode, ih rest]

/-- The expected handshake signature is always 4 bytes. -/
theorem expectedSres_length (auth_key rand_a rand_t : List Nat) :
    (expectedSres auth_key rand_a rand_t).length = 4 := by
  simp [expectedSres, hmacSha256_length]

/-- A found slot always ends the polling loop at once with the early flag. -/
theorem scan_loop_found (expected_mac tile_id : List Char) (fuel : Nat)
    (rest : List (List Advert)) (d : Advert) :
    scan_loop expected_mac tile_id fuel (some d) rest = (some d, true) := by
  cases fuel <;> simp [scan_loop]

/-! ## Claim theorems -/

/-- C8: for device_id `"03a757b8479cbdfc"` the derived BLE address is exactly
`"C3:A7:57:B8:47:9C"`; and for every device_id with at least 12 hex
characters after separator removal, the derived address is the first 6
decoded bytes with the first byte replaced by `(byte0 & 0x3F) | 0xC0`,
formatted as colon-separated uppercase hex. -/
theorem derived_address_matches_spec :
    tile_id_to_mac "03a757b8479cbdfc" = "C3:A7:57:B8:47:9C" ∧
    ∀ s : String, 12 ≤ (normalizeHexStr s).length →
      (∀ c ∈ (normalizeHexStr s).take 12, isHexChar c = true) →
      tile_id_to_mac s = specDerivedAddress s := by
  constructor
  · decide
  · intro s h _
    have hn : ¬ (normalizeHexStr s).length < 12 := by omega
    have h12 : hexDecode ((normalizeHexStr s).take 12) =
        (hexDecode (normalizeHexStr s)).take 6 := by
      have := hexDecode_take 6 (normalizeHexStr s)
      norm_num at this
      exact this
    simp [tile_id_to_mac, specDerivedAddress, hn, h12]

/-- Witness for C8: the hypotheses hold at the documented device_id. -/
theorem derived_address_matches_spec_witness :
    12 ≤ (normalizeHexStr "03a757b8479cbdfc").length ∧
    tile_id_to_mac "03a757b8479cbdfc" = specDerivedAddress "03a757b8479cbdfc" :=
  ⟨by decide,
   derived_address_matches_spec.2 "03a757b8479cbdfc" (by decide) (by decide)⟩

/-- C9: for every device_id with fewer than 12 characters after separator
removal, address derivation fails — the deriver returns its empty-string
failure sentinel (the behaviour the spec's `InvalidIdentityError` names). -/
theorem short_tile_id_derivation_fails (s : String)
    (h : (normalizeHexStr s).length < 12) : tile_id_to_mac s = "" := by
  simp [tile_id_to_mac, h]

/-- Witness for C9: a 4-character identifier fails derivation. -/
theorem short_tile_id_derivation_fails_witness :
    (normalizeHexStr "03a7").length < 12 ∧ tile_id_to_mac "03a7" = "" :=
  ⟨by decide, short_tile_id_derivation_fails "03a7" (by decide)⟩

/-- C1: whenever the nonce-exchange body parses into a device nonce and a
device signature, the handshake reaches the verified state exactly when the
device signature equals `expectedSres` — HMAC-SHA-256 of the two 16-byte
zero-padded nonces, digest bytes `[4:8]` — and a mismatch is the fatal
authentication error. -/
theorem auth_verified_iff_sres_matches
    (auth_key rand_a auth_data rand_t sres_t : List Nat)
    (h : parseAuthData auth_data = .ok (rand_t, sres_t)) :
    (verifyAuth auth_key rand_a auth_data = .ok rand_t ↔
      sres_t = expectedSres auth_key rand_a rand_t) ∧
    (sres_t ≠ expectedSres auth_key rand_a rand_t →
      verifyAuth auth_key rand_a auth_data = .error .authenticationError) := by
  unfold verifyAuth
  rw [h]
  by_cases hc : sres_t = expectedSres auth_key rand_a rand_t
  · simp [hc]
  · simp [hc]

/-- Witness for C1: a well-formed TOA body carrying the correct signature
is accepted. -/
theorem auth_verified_iff_sres_matches_witness :
    parseAuthData wAuthData = .ok (wRandT, expectedSres wKey wRandA wRandT) ∧
    verifyAuth wKey wRandA wAuthData = .ok wRandT := by
  have hp : parseAuthData wAuthData =
      .ok (wRandT, expectedSres wKey wRandA wRandT) := by
    have hlen : wAuthData.length = 15 := by
      simp [wAuthData, wRandT, expectedSres_length]
    have h1 : (wAuthData.drop 1).take 10 = wRandT := by
      simp [wAuthData, wRandT]
    have h2 : (wAuthData.drop 11).take 4 = expectedSres wKey wRandA wRandT := by
      simp [wAuthData, wRandT, List.take_of_length_le,
        expectedSres_length]
    unfold parseAuthData
    rw [if_pos hlen, h1, h2]
  exact ⟨hp,
    (auth_verified_iff_sres_matches wKey wRandA wAuthData wRandT _ hp).1.mpr rfl⟩

/-- C5: a stripped nonce-exchange body that is neither exactly 15 bytes nor
at least 17 bytes (for example 14 bytes) is a protocol error: the handshake
aborts and no channel frame is written. -/
theorem bad_auth_length_protocol_error
    (auth_key rand_a auth_data : List Nat)
    (open_resp establish_resp : Option (List Nat))
    (h15 : auth_data.length ≠ 15) (h17 : auth_data.length < 17) :
    verifyAuth auth_key rand_a auth_data = .error .protocolError ∧
    authenticate_after_nonce auth_key rand_a auth_data open_resp
      establish_resp = (false, []) := by
  have hp : parseAuthData auth_data = .error .protocolError := by
    unfold parseAuthData
    rw [if_neg h15, if_neg (by omega)]
  have hv : verifyAuth auth_key rand_a auth_data = .error .protocolError := by
    unfold verifyAuth
    rw [hp]
  refine ⟨hv, ?_⟩
  unfold authenticate_after_nonce
  rw [hv]

/-- Witness for C5: the spec's 14-byte scenario aborts with no channel
work. -/
theorem bad_auth_length_protocol_error_witness :
    (List.replicate 14 0 : List Nat).length ≠ 15 ∧
    (List.replicate 14 0 : List Nat).length < 17 ∧
    verifyAuth wKey wRandA (List.replicate 14 0) = .error .protocolError ∧
    authenticate_after_nonce wKey wRandA (List.replicate 14 0) none none =
      (false, []) :=
  ⟨by decide, by decide,
   (bad_auth_length_protocol_error wKey wRandA _ none none (by decide)
     (by decide)).1,
   (bad_auth_length_protocol_error wKey wRandA _ none none (by decide)
     (by decide)).2⟩

/-- C10: on every legacy-format body (17 bytes or more), the parsed device
signature has 8 bytes while the expected signature has 4, so verification
can never succeed: `authenticate` always fails there, whatever the key and
nonces. -/
theorem legacy_format_auth_always_fails
    (auth_key rand_a auth_data : List Nat) (h : 17 ≤ auth_data.length) :
    verifyAuth auth_key rand_a auth_data = .error .authenticationError := by
  have h15 : ¬ auth_data.length = 15 := by omega
  have hst : ((auth_data.drop 9).take 8).length = 8 := by
    simp only [List.length_take, List.length_drop]
    omega
  have hne : (auth_data.drop 9).take 8 ≠
      expectedSres auth_key rand_a ((auth_data.drop 1).take 8) := by
    intro hEq
    have hl := congrArg List.length hEq
    rw [hst, expectedSres_length] at hl
    omega
  unfold verifyAuth parseAuthData
  rw [if_neg h15, if_pos h]
  simp only [List.drop_one] at hne
  simp [hne]

/-- Witness for C10: a 17-byte all-zero body fails for a concrete key. -/
theorem legacy_format_auth_always_fails_witness :
    17 ≤ (List.replicate 17 0 : List Nat).length ∧
    verifyAuth wKey wRandA (List.replicate 17 0) =
      .error .authenticationError :=
  ⟨by decide, legacy_format_auth_always_fails wKey wRandA _ (by decide)⟩

/-- C2 counterexample: with a 15-byte auth_key, `stop_ring_tile_ble` does
NOT fail before radio I/O — it performs a scan (the claim asserts both
public operations return failure with no scan attempted). -/
theorem stop_ring_scans_with_short_key :
    (List.replicate 15 0 : List Nat).length ≠ 16 ∧
    stop_ring_tile_ble (List.replicate 15 0)
      ⟨false, false, false, false, false⟩ = (false, [RadioOp.scanOp]) ∧
    ¬ (stop_ring_tile_ble (List.replicate 15 0)
      ⟨false, false, false, false, false⟩).2 = [] := by
  refine ⟨by decide, by decide, by decide⟩

/-- C2 amended: for every auth_key of length other than 16, `ring_tile_ble`
fails with no radio action at all, while `stop_ring_tile_ble` performs no
length validation and always begins with a scan. -/
theorem ring_validates_key_stop_does_not (auth_key : List Nat) (env : BleEnv)
    (h : auth_key.length ≠ 16) :
    ring_tile_ble auth_key env = (false, []) ∧
    (stop_ring_tile_ble auth_key env).2.head? = some RadioOp.scanOp := by
  constructor
  · simp [ring_tile_ble, h]
  · rcases env with ⟨sf, co, ao, ro, so⟩
    cases sf <;> cases co <;> cases ao <;> simp [stop_ring_tile_ble]

/-- Witness for C2's amended statement at a concrete short key. -/
theorem ring_validates_key_stop_does_not_witness :
    (List.replicate 15 0 : List Nat).length ≠ 16 ∧
    ring_tile_ble (List.replicate 15 0) ⟨true, true, true, true, true⟩ =
      (false, []) ∧
    (stop_ring_tile_ble (List.replicate 15 0)
      ⟨true, true, true, true, true⟩).2.head? = some RadioOp.scanOp :=
  ⟨by decide,
   (ring_validates_key_stop_does_not _ _ (by decide)).1,
   (ring_validates_key_stop_does_not _ _ (by decide)).2⟩

/-- C3: from a fresh session (`tx_counter = 0`), the four signed frames of a
ring flow use counters exactly `[1, 2, 3, 4]` — strictly increasing, none
reused, the first equal to 1 — and each signed builder increments
`tx_counter` and embeds precisely the incremented value in its HMAC
message. -/
theorem tx_counter_fresh_session_sequence (s : Session)
    (volume duration_seconds : Nat) (h : s.tx_counter = 0) :
    ringFlowCounters s volume duration_seconds = [1, 2, 3, 4] ∧
    List.Chain' (· < ·) (ringFlowCounters s volume duration_seconds) ∧
    (ringFlowCounters s volume duration_seconds).Nodup ∧
    (∀ t : Session,
      (establish_channel_frame t).1.tx_counter = t.tx_counter + 1 ∧
      (establish_channel_frame t).2 =
        [t.channel_byte, 0x12, 0x13] ++ hmacTag t.channel_key
          (build_hmac_message (t.tx_counter + 1) [0x12, 0x13] false) ∧
      (update_connection_params_frame t).1.tx_counter = t.tx_counter + 1 ∧
      (update_connection_params_frame t).2 =
        t.channel_byte :: ([0x0c, 0x03] ++ connParamsBytes) ++ hmacTag
          t.channel_key (build_hmac_message (t.tx_counter + 1)
            ([0x0c, 0x03] ++ connParamsBytes) false) ∧
      (read_song_features_frame t).1.tx_counter = t.tx_counter + 1 ∧
      (read_song_features_frame t).2 =
        t.channel_byte :: [0x05, 0x06] ++ hmacTag t.channel_key
          (build_hmac_message (t.tx_counter + 1) [0x05, 0x06] false) ∧
      ∀ vv dd : Nat,
        (build_ring_command t vv dd).1.tx_counter = t.tx_counter + 1 ∧
        (build_ring_command t vv dd).2 =
          t.channel_byte :: [0x05, 0x02, 0x01, vv, dd] ++ hmacTag
            t.channel_key (build_hmac_message (t.tx_counter + 1)
              [0x05, 0x02, 0x01, vv, dd] false)) := by
  have e : ringFlowCounters s volume duration_seconds = [1, 2, 3, 4] := by
    simp [ringFlowCounters, establish_channel_frame,
      update_connection_params_frame, read_song_features_frame,
      build_ring_command, h]
  refine ⟨e, ?_, by rw [e]; decide, ?_⟩
  · rw [e]
    exact List.chain'_cons.mpr ⟨by norm_num, List.chain'_cons.mpr
      ⟨by norm_num, List.chain'_cons.mpr ⟨by norm_num, List.chain'_singleton _⟩⟩⟩
  intro t
  exact ⟨rfl, rfl, rfl, rfl, rfl, rfl, fun vv dd => ⟨rfl, rfl⟩⟩

/-- Witness for C3 at a concrete fresh session. -/
theorem tx_counter_fresh_session_sequence_witness :
    (Session.mk 0 0 [] 0).tx_counter = 0 ∧
    ringFlowCounters ⟨0, 0, [], 0⟩ 3 10 = [1, 2, 3, 4] :=
  ⟨rfl, (tx_counter_fresh_session_sequence ⟨0, 0, [], 0⟩ 3 10 rfl).1⟩

/-- C4: on a frame long enough to verify, success holds exactly when the
trailing 4 bytes equal the tag recomputed at `rx_counter + 1` (direction 0,
channel byte stripped); on success the counter stays incremented by exactly
one, and on mismatch the speculative increment is rolled back so the session
is unchanged, the failure being a plain `false` result. -/
theorem rx_counter_speculative_increment (s : Session) (response : List Nat)
    (h : 6 ≤ response.length) :
    ((verify_response_hmac s response).2.1 = true ↔
      hmacTag s.channel_key (build_hmac_message (s.rx_counter + 1)
        ((response.take (response.length - 4)).drop 1) true) =
        response.drop (response.length - 4)) ∧
    ((verify_response_hmac s response).2.1 = true →
      (verify_response_hmac s response).1 =
        { s with rx_counter := s.rx_counter + 1 }) ∧
    ((verify_response_hmac s response).2.1 = false →
      (verify_response_hmac s response).1 = s) ∧
    (verify_response_hmac s response).2.2 =
      response.take (response.length - 4) := by
  have hn : ¬ response.length < 6 := by omega
  unfold verify_response_hmac
  rw [if_neg hn]
  simp only [List.drop_one]
  by_cases hc : hmacTag s.channel_key (build_hmac_message (s.rx_counter + 1)
      (response.take (response.length - 4)).tail true) =
      response.drop (response.length - 4)
  · simp [hc]
  · simp [hc]

/-- Witness for C4 at a concrete session and 6-byte frame. -/
theorem rx_counter_speculative_increment_witness :
    6 ≤ ([1, 2, 3, 4, 5, 6] : List Nat).length ∧
    ((verify_response_hmac ⟨0, 0, [], 0⟩ [1, 2, 3, 4, 5, 6]).2.1 = false →
      (verify_response_hmac ⟨0, 0, [], 0⟩ [1, 2, 3, 4, 5, 6]).1 =
        ⟨0, 0, [], 0⟩) :=
  ⟨by decide,
   (rx_counter_speculative_increment ⟨0, 0, [], 0⟩ [1, 2, 3, 4, 5, 6]
     (by decide)).2.2.1⟩

/-- C6 counterexample: a record advertising the Tile service UUID with a
non-matching address makes the scan stop early (before the 5-interval
timeout), contradicting the claim that only an exact derived-address match
stops the scan before the timeout. -/
theorem scan_stops_early_on_fallback :
    scan_for_tile "03a757b8479cbdfc" 5 [[fallbackAdvert]] =
      (some fallbackAdvert, true) ∧
    normalizeHexStr fallbackAdvert.address ≠
      normalizeHexStr (tile_id_to_mac "03a757b8479cbdfc") := by
  refine ⟨by decide, by decide⟩

/-- C6 amended: a service-UUID record with a differing address is indeed
retained as a fallback candidate, but the polling loop then stops at the
very next check with whatever candidate is retained — any candidate, not
only an exact derived-address match, ends the scan before the timeout. -/
theorem fallback_candidate_stops_next_poll (expected_mac tile_id : List Char)
    (dev : Advert) (fuel : Nat) (batch : List Advert)
    (rest : List (List Advert)) (d : Advert)
    (hdev : dev.service_uuids.contains TILE_SERVICE_UUID = true)
    (haddr : normalizeHexStr dev.address ≠ expected_mac)
    (hfold : batch.foldl (detection_callback expected_mac tile_id) none =
      some d) :
    detection_callback expected_mac tile_id none dev = some dev ∧
    scan_loop expected_mac tile_id (fuel + 1) none (batch :: rest) =
      (some d, true) := by
  constructor
  · have hmem : TILE_SERVICE_UUID ∈ dev.service_uuids := by
      simpa using hdev
    simp [detection_callback, hmem, haddr]
  · have step : scan_loop expected_mac tile_id (fuel + 1) none (batch :: rest) =
        scan_loop expected_mac tile_id fuel
          (batch.foldl (detection_callback expected_mac tile_id) none) rest := by
      simp [scan_loop]
    rw [step, hfold, scan_loop_found]

/-- Witness for C6's amended statement at a concrete fallback record. -/
theorem fallback_candidate_stops_next_poll_witness :
    fallbackAdvert.service_uuids.contains TILE_SERVICE_UUID = true ∧
    detection_callback ['c'] [] none fallbackAdvert = some fallbackAdvert ∧
    scan_loop ['c'] [] 4 none [[fallbackAdvert]] = (some fallbackAdvert, true) :=
  ⟨by decide,
   (fallback_candidate_stops_next_poll ['c'] [] fallbackAdvert 3 [fallbackAdvert]
     [] fallbackAdvert (by decide) (by decide) (by decide)).1,
   (fallback_candidate_stops_next_poll ['c'] [] fallbackAdvert 3 [fallbackAdvert]
     [] fallbackAdvert (by decide) (by decide) (by decide)).2⟩

/-- C7 counterexample: even when a SONG-error response (command byte `0x05`)
arrives after the ring frame, the ring stage still returns success — never
the claim's `UnsupportedFeatureError`, which no code path produces. -/
theorem ring_ignores_song_error_response :
    (ring_after_auth ⟨0, 0, [], 2⟩ 3 10 (some [2, 0x05, 0x01])).1 =
      RingOutcome.success ∧
    RingOutcome.success ≠ RingOutcome.unsupportedFeature :=
  ⟨rfl, by decide⟩

/-- C7 amended: the ring stage never reads any response after its writes:
its outcome is success and its whole result is independent of whatever
notification arrives after the ring frame. -/
theorem ring_result_independent_of_response (s : Session)
    (volume duration_seconds : Nat) (resp : Option (List Nat)) :
    (ring_after_auth s volume duration_seconds resp).1 =
      RingOutcome.success ∧
    ring_after_auth s volume duration_seconds resp =
      ring_after_auth s volume duration_seconds none :=
  ⟨rfl, rfl⟩

end TileBle
